import Mathlib

/-!
Verification development for the location-checker application.

The embedding below translates the provider adapters and the session
controller of the source (src/components/providers/NavigatorProvider.tsx,
src/components/providers/IpProvider.tsx, the App controller in
src/services/wifi.ts, and the shared types) into executable Lean
definitions.  Asynchronous callbacks are modelled by explicit state
passing; browser collaborators (window.prompt responses, fetch results)
are supplied as explicit lists of scripted values that the code consumes
in order; numeric JSON values are modelled as integers.  JavaScript
truthiness on the values the code actually tests (strings, optional
strings, optional numbers) is modelled by the js* helpers.  Logging calls
are omitted.  Multi-line template-literal texts are reproduced with
newline separators and their leading indentation normalised.
-/

namespace LocationChecker

/-- JavaScript truthiness of a string: falsy iff it is the empty string. -/
def jsTruthy (s : String) : Bool := !s.isEmpty

/-- JavaScript truthiness of a nullable string (null and the empty string
are falsy). -/
def jsTruthyOpt : Option String → Bool
  | none => false
  | some s => jsTruthy s

/-- JavaScript truthiness of a nullable number (null/undefined and 0 are
falsy). -/
def jsTruthyNum : Option Nat → Bool
  | none => false
  | some n => n != 0

/-- JavaScript expression (m || d) for a nullable string m: the default d
is used when m is absent or empty. -/
def jsOr (m : Option String) (d : String) : String :=
  match m with
  | none => d
  | some s => if s.isEmpty then d else s

/-- Whether the first list starts the second one. -/
def leadsList : List Char → List Char → Bool
  | [], _ => true
  | _ :: _, [] => false
  | p :: ps, c :: cs => p == c && leadsList ps cs

/-- Whether the pattern occurs contiguously in the list. -/
def containsList (pat : List Char) : List Char → Bool
  | [] => pat.isEmpty
  | c :: cs => leadsList pat (c :: cs) || containsList pat cs

/-- JavaScript String.prototype.includes: the pattern occurs as a
contiguous substring. -/
def includesSub (pat s : String) : Bool := containsList pat.data s.data

/-- LocationData from src/types.ts.  Coordinates and accuracy are
modelled as integers. -/
structure LocationData where
  lat : Int
  lon : Int
  accuracy : Int
  provider : String
  isLive : Bool
deriving Repr, DecidableEq

/-- LocationError from src/types.ts: message, userMessage, userDetails,
and the optional status field assigned after construction. -/
structure LocationError where
  message : String
  userMessage : String
  userDetails : String
  status : Option Nat := none
deriving Repr, DecidableEq

/-- Record of the callbacks a provider run performed: onError
invocations and onLocationUpdate invocations, in order. -/
structure CallTrace where
  errCalls : List LocationError
  updCalls : List LocationData
deriving Repr, DecidableEq

namespace Ip

/-- Body of the IP service response: ok flag and status of the fetch
Response, and the latitude/longitude fields of the parsed JSON (absent
fields are none). -/
structure IpResponse where
  ok : Bool
  status : Nat
  latitude : Option Int := none
  longitude : Option Int := none
deriving Repr, DecidableEq

/-- Outcome of the fetch call in the IP provider: either a parsed
response, or a rejection carrying the thrown error's name and message. -/
inductive IpFetch where
  | resp (r : IpResponse)
  | reject (name : String) (message : String)
deriving Repr, DecidableEq

/-- JavaScript falsiness of a nullable numeric JSON field, as tested by
the checks on data.latitude and data.longitude (absent and 0 are falsy). -/
def jsFalsyNum : Option Int → Bool
  | none => true
  | some n => n == 0

/-- Error built for HTTP 429 in the IP provider. -/
def rateLimitError (status : Nat) : LocationError :=
  { message := "Rate limit exceeded", userMessage := "Rate limit exceeded",
    userDetails := "Too many requests to IP geolocation service. Please wait a moment and try again.",
    status := some status }

/-- Error built for any other non-success status in the IP provider. -/
def serviceError (status : Nat) : LocationError :=
  { message := "IP Geolocation service error", userMessage := "IP Geolocation error",
    userDetails := "Failed to get location using IP address. Please try a different provider.",
    status := some status }

/-- Error built when the response body lacks (JS-truthy) latitude or
longitude. -/
def invalidDataError : LocationError :=
  { message := "Invalid location data", userMessage := "Invalid location data",
    userDetails := "The IP geolocation service returned invalid data. Please try a different provider." }

/-- Wrapping applied in the catch block to a TypeError mentioning fetch. -/
def networkError (msg : String) : LocationError :=
  { message := msg, userMessage := "Network error",
    userDetails := "Failed to connect to IP geolocation service. Please check your internet connection and try again." }

/-- Wrapping applied in the catch block to any other non-LocationError. -/
def unknownWrapError (msg : String) : LocationError :=
  { message := if msg.isEmpty then "Unknown error" else msg,
    userMessage := "IP Geolocation error",
    userDetails := "An unexpected error occurred while getting location from IP. Please try a different provider." }

/-- getLocation of useIpProvider (src/components/providers/IpProvider.tsx),
evaluated against a scripted fetch outcome.  Returns the settled value of
the promise together with the callback trace. -/
def getLocation : IpFetch → Except LocationError LocationData × CallTrace
  | .resp r =>
    if !r.ok then
      let e := if r.status == 429 then rateLimitError r.status else serviceError r.status
      (.error e, { errCalls := [e], updCalls := [] })
    else if jsFalsyNum r.latitude || jsFalsyNum r.longitude then
      (.error invalidDataError, { errCalls := [invalidDataError], updCalls := [] })
    else
      let d : LocationData :=
        { lat := r.latitude.getD 0, lon := r.longitude.getD 0,
          accuracy := 5000, provider := "ip", isLive := false }
      (.ok d, { errCalls := [], updCalls := [d] })
  | .reject name msg =>
    let e := if name == "TypeError" && includesSub "fetch" msg then networkError msg
             else unknownWrapError msg
    (.error e, { errCalls := [e], updCalls := [] })

/-- cleanup of useIpProvider: the empty arrow function, releasing
nothing. -/
def cleanup : Unit → Unit × List Nat := fun _ => ((), [])

end Ip

namespace Navigator

/-- A geolocation reading as delivered by the browser. -/
structure GeoPosition where
  latitude : Int
  longitude : Int
  accuracy : Int
deriving Repr, DecidableEq

/-- The locationData record built in handlePosition. -/
def toLocationData (liveTracking : Bool) (p : GeoPosition) : LocationData :=
  { lat := p.latitude, lon := p.longitude, accuracy := p.accuracy,
    provider := "navigator", isLive := liveTracking }

/-- Promise resolution semantics: resolving an already-settled promise is
a no-op; resolving a pending promise settles it. -/
def resolvePromise (settled : Option LocationData) (v : LocationData) : Option LocationData :=
  match settled with
  | some x => some x
  | none => some v

/-- Observable state of one getLocation run of the navigator provider:
the settled value of the returned promise (none while pending) and the
onLocationUpdate invocations so far. -/
structure WatchRun where
  promise : Option LocationData
  updCalls : List LocationData
deriving Repr, DecidableEq

/-- handlePosition of useNavigatorProvider: invokes onLocationUpdate with
the reading and then calls resolve on the promise. -/
def handlePosition (liveTracking : Bool) (st : WatchRun) (pos : GeoPosition) : WatchRun :=
  let d := toLocationData liveTracking pos
  { promise := resolvePromise st.promise d, updCalls := st.updCalls ++ [d] }

/-- Delivery of a sequence of readings to the handlePosition callback
registered by getLocation (watchPosition delivers many; getCurrentPosition
delivers one). -/
def runWatch (liveTracking : Bool) (readings : List GeoPosition) : WatchRun :=
  readings.foldl (handlePosition liveTracking) { promise := none, updCalls := [] }

/-- cleanup of useNavigatorProvider: if watchIdRef.current is truthy
(non-null and non-zero), clearWatch is called on it and the ref is set to
null; otherwise nothing happens.  Returns the new ref value and the list
of watch ids cleared by this call. -/
def cleanup : Option Nat → Option Nat × List Nat
  | some n => if n != 0 then (none, [n]) else (some n, [])
  | none => (none, [])

end Navigator

namespace Google

/-- A Wi-Fi access point entry as held in the wifiNetworks state. -/
structure WifiNetwork where
  macAddress : String
  signalStrength : Int
  channel : Option Int := none
deriving Repr, DecidableEq

/-- A cell tower entry as held in the cellTowers state. -/
structure CellTower where
  cellId : Nat
  locationAreaCode : Nat
  mobileCountryCode : Nat
  mobileNetworkCode : Nat
  signalStrength : Option Int := none
deriving Repr, DecidableEq

/-- The networkInfo props record (mcc, mnc, carrier strings). -/
structure NetworkInfo where
  mcc : String
  mnc : String
  carrier : String
deriving Repr, DecidableEq

/-- Props and hook state of useGoogleProvider that getLocation reads:
the method flags, networkInfo, and the wifiNetworks/cellTowers state at
the render that produced this getLocation closure. -/
structure GoogleCfg where
  useWifi : Bool
  useCellular : Bool
  useIp : Bool
  networkInfo : NetworkInfo
  wifiNetworks : List WifiNetwork
  cellTowers : List CellTower
deriving Repr, DecidableEq

/-- The JSON request payload assembled by getLocation; absent optional
fields are none. -/
structure GeoPayload where
  considerIp : Bool
  radioType : Option String := none
  homeMobileCountryCode : Option Int := none
  homeMobileNetworkCode : Option Int := none
  carrier : Option String := none
  cellTowers : Option (List CellTower) := none
  wifiAccessPoints : Option (List WifiNetwork) := none
deriving Repr, DecidableEq

/-- A response of the geolocation endpoint: the ok flag and status of
the fetch Response, the optional data.error.message of the parsed body,
and on success the location/accuracy fields. -/
structure GoogleResponse where
  ok : Bool
  status : Nat
  errMsg : Option String := none
  lat : Int := 0
  lng : Int := 0
  accuracy : Int := 0
deriving Repr, DecidableEq

/-- Error thrown when no API key is provided at the initial prompt. -/
def noApiKeyError : LocationError :=
  { message := "No API key provided", userMessage := "API key required",
    userDetails := "Please provide a valid Google Geolocation API key to use this provider." }

/-- Error thrown when none of the three location methods is selected. -/
def noMethodsError : LocationError :=
  { message := "No methods selected", userMessage := "No location methods selected",
    userDetails := "Please select at least one location method (WiFi, Cellular, or IP)" }

/-- Error thrown when the mobile country code is not all digits. -/
def invalidMccError : LocationError :=
  { message := "Invalid MCC", userMessage := "Invalid Mobile Country Code",
    userDetails := "Mobile Country Code must be numeric" }

/-- Error thrown when the mobile network code is not all digits. -/
def invalidMncError : LocationError :=
  { message := "Invalid MNC", userMessage := "Invalid Mobile Network Code",
    userDetails := "Mobile Network Code must be numeric" }

/-- Error thrown in the (dead) insufficient-WiFi branch. -/
def insufficientWifiError : LocationError :=
  { message := "Insufficient WiFi data", userMessage := "WiFi location unavailable",
    userDetails := "At least 2 WiFi access points are required for WiFi-based location. Please enable IP or Cellular methods." }

/-- Error built for an invalid-API-key response, with its status
assigned afterwards. -/
def invalidApiKeyError (status : Nat) : LocationError :=
  { message := "Invalid API Key", userMessage := "API Key Error",
    userDetails := "The provided API key is not valid. Please check your API key and try again.",
    status := some status }

/-- Error built for HTTP 429. -/
def rateLimitExceededError (status : Nat) : LocationError :=
  { message := "Rate limit exceeded", userMessage := "Too many requests",
    userDetails := "You have exceeded the quota for API requests. Please wait a moment and try again.",
    status := some status }

/-- Error built for other HTTP 400 responses, interpolating the
server-supplied message. -/
def badRequestError (errMsg : Option String) (status : Nat) : LocationError :=
  { message := jsOr errMsg "Bad Request", userMessage := "Request Error",
    userDetails := "The request was invalid. " ++ jsOr errMsg "Please check your settings and try again.",
    status := some status }

/-- Error built for any other non-success status. -/
def apiGenericError (errMsg : Option String) (status : Nat) : LocationError :=
  { message := jsOr errMsg "Google Geolocation API error", userMessage := "API Error",
    userDetails := "Failed to get location using Google Geolocation API. " ++
      jsOr errMsg "Please try again or use a different provider.",
    status := some status }

/-- Wrapping applied by the catch block when the fetch itself rejects
(a transport failure, message Failed to fetch): the rejection is not a
LocationError, so it is wrapped into the generic Google Geolocation
error. -/
def fetchFailedError : LocationError :=
  { message := "Failed to fetch", userMessage := "Google Geolocation error",
    userDetails := "An unexpected error occurred. Please try a different provider." }

/-- The regular expression test of the source: an all-digit,
non-empty string. -/
def matchesAllDigits (s : String) : Bool := !s.isEmpty && s.data.all Char.isDigit

/-- parseInt on the (validated, all-digit) code strings. -/
def jsParseInt (s : String) : Int := ((s.toNat?).getD 0 : Int)

/-- The condition classifying a response as an invalid-API-key response:
status 403, or status 400 whose error message includes the phrase
API key not valid. -/
def isInvalidKeyResp (r : GoogleResponse) : Bool :=
  r.status == 403 ||
    (r.status == 400 &&
      (match r.errMsg with
       | none => false
       | some m => includesSub "API key not valid" m))

/-- The cellular block of payload construction: runs only when cellular
is enabled and both mcc and mnc are truthy (non-empty); validates both
codes as all-digit, then attaches radio type, numeric codes, optional
carrier, and cell towers when any are held. -/
def attachCellular (cfg : GoogleCfg) (p : GeoPayload) : Except LocationError GeoPayload :=
  if cfg.useCellular && jsTruthy cfg.networkInfo.mcc && jsTruthy cfg.networkInfo.mnc then
    if !matchesAllDigits cfg.networkInfo.mcc then .error invalidMccError
    else if !matchesAllDigits cfg.networkInfo.mnc then .error invalidMncError
    else
      let p1 := { p with
        radioType := some "gsm",
        homeMobileCountryCode := some (jsParseInt cfg.networkInfo.mcc),
        homeMobileNetworkCode := some (jsParseInt cfg.networkInfo.mnc) }
      let p2 := if jsTruthy cfg.networkInfo.carrier then
                  { p1 with carrier := some cfg.networkInfo.carrier } else p1
      let p3 := if cfg.cellTowers.length > 0 then
                  { p2 with cellTowers := some cfg.cellTowers } else p2
      .ok p3
  else .ok p

/-- The Wi-Fi block of payload construction, kept literally as in the
source: the guard wifiNetworks.length greater-or-equal 0 always holds, so
the access-point list is attached whenever Wi-Fi is enabled and the
insufficient-data branch below it is unreachable. -/
def attachWifi (cfg : GoogleCfg) (p : GeoPayload) : Except LocationError GeoPayload :=
  if cfg.useWifi then
    if cfg.wifiNetworks.length ≥ 0 then
      .ok { p with wifiAccessPoints := some cfg.wifiNetworks }
    else if !cfg.useIp && !cfg.useCellular then
      .error insufficientWifiError
    else .ok p
  else .ok p

/-- Full payload construction: considerIp from the IP flag, then the
cellular block, then the Wi-Fi block. -/
def buildPayload (cfg : GoogleCfg) : Except LocationError GeoPayload :=
  match attachCellular cfg { considerIp := cfg.useIp } with
  | .error e => .error e
  | .ok p => attachWifi cfg p

deriving instance DecidableEq for Except

/-- Result of a getLocation run of the Google provider: the settled
value of the promise, the localStorage key after the run, the number of
window.prompt invocations, the fetch requests issued as (key, payload)
pairs in order, and the callback trace. -/
structure GoogleResult where
  outcome : Except LocationError LocationData
  stored : Option String
  promptCount : Nat
  requests : List (String × GeoPayload)
  errCalls : List LocationError
  updCalls : List LocationData
deriving Repr, DecidableEq

/-- Outcome of the phase of getLocation preceding the fetch: either a
thrown error (tagged with whether it was raised inside the try block and
hence reported through onError), or the key and payload to fetch with. -/
inductive PreOutcome where
  | fail (e : LocationError) (onErr : Bool) (stored : Option String) (promptCount : Nat)
  | proceed (key : String) (payload : GeoPayload) (stored : Option String)
      (prompts : List (Option String)) (promptCount : Nat)
deriving Repr, DecidableEq

/-- Steps of getLocation after the key is settled: the methods-selected
validation (thrown outside the try block) followed by payload
construction (whose errors are thrown inside the try block). -/
def afterKey (cfg : GoogleCfg) (key : String) (stored : Option String)
    (prompts : List (Option String)) (pc : Nat) : PreOutcome :=
  if !cfg.useWifi && !cfg.useCellular && !cfg.useIp then
    .fail noMethodsError false stored pc
  else
    match buildPayload cfg with
    | .error e => .fail e true stored pc
    | .ok payload => .proceed key payload stored prompts pc

/-- The phase of getLocation before the fetch.  The apiKey state read at
the top is the render-time snapshot; when it is falsy the caller is
prompted, and a truthy prompt answer is stored (setApiKey and
setStoredApiKey) and used immediately, while a falsy answer throws the
no-API-key error outside the try block. -/
def preFetch (cfg : GoogleCfg) (snapshot stored : Option String)
    (prompts : List (Option String)) : PreOutcome :=
  if jsTruthyOpt snapshot then
    afterKey cfg (snapshot.getD "") stored prompts 0
  else
    match prompts.headD none with
    | some k =>
      if jsTruthy k then afterKey cfg k (some k) prompts.tail 1
      else .fail noApiKeyError false stored 1
    | none => .fail noApiKeyError false stored 1

/-- The GoogleResult of a pre-fetch throw: no request issued; onError is
invoked only for errors thrown inside the try block. -/
def preFailResult (e : LocationError) (onErr : Bool) (stored : Option String)
    (pc : Nat) : GoogleResult :=
  { outcome := .error e, stored := stored, promptCount := pc, requests := [],
    errCalls := if onErr then [e] else [], updCalls := [] }

/-- getLocation of useGoogleProvider, evaluated against scripted
window.prompt answers and scripted fetch responses, both consumed in
order.  The snapshot argument is the apiKey state captured by the
render that produced this closure: the recursive retry re-enters the
same closure, so the snapshot is unchanged across retries, while the
stored (localStorage) value threads through.  Each fetch consumes one
scripted response; a fetch attempted with no scripted response left
models a transport rejection, which the catch block wraps.  On an
invalid-key response the stored key is removed, the caller is
re-prompted, and a truthy answer is stored and the whole acquisition
re-run on the remaining script; a falsy answer lets the invalid-key
error be thrown (through onError). -/
def getLocationGo (cfg : GoogleCfg) (snapshot : Option String) :
    Option String → List (Option String) → List GoogleResponse → GoogleResult
  | stored, prompts, [] =>
    match preFetch cfg snapshot stored prompts with
    | .fail e onErr stored1 pc => preFailResult e onErr stored1 pc
    | .proceed key payload stored1 _prompts1 pc =>
      { outcome := .error fetchFailedError, stored := stored1, promptCount := pc,
        requests := [(key, payload)], errCalls := [fetchFailedError], updCalls := [] }
  | stored, prompts, r :: rest =>
    match preFetch cfg snapshot stored prompts with
    | .fail e onErr stored1 pc => preFailResult e onErr stored1 pc
    | .proceed key payload stored1 prompts1 pc =>
      if !r.ok then
        if isInvalidKeyResp r then
          match prompts1.headD none with
          | some newKey =>
            if jsTruthy newKey then
              let retry := getLocationGo cfg snapshot (some newKey) prompts1.tail rest
              { outcome := retry.outcome, stored := retry.stored,
                promptCount := pc + 1 + retry.promptCount,
                requests := (key, payload) :: retry.requests,
                errCalls := retry.errCalls, updCalls := retry.updCalls }
            else
              { outcome := .error (invalidApiKeyError r.status), stored := none,
                promptCount := pc + 1, requests := [(key, payload)],
                errCalls := [invalidApiKeyError r.status], updCalls := [] }
          | none =>
            { outcome := .error (invalidApiKeyError r.status), stored := none,
              promptCount := pc + 1, requests := [(key, payload)],
              errCalls := [invalidApiKeyError r.status], updCalls := [] }
        else
          let e := if r.status == 429 then rateLimitExceededError r.status
                   else if r.status == 400 then badRequestError r.errMsg r.status
                   else apiGenericError r.errMsg r.status
          { outcome := .error e, stored := stored1, promptCount := pc,
            requests := [(key, payload)], errCalls := [e], updCalls := [] }
      else
        let d : LocationData :=
          { lat := r.lat, lon := r.lng, accuracy := r.accuracy,
            provider := "google", isLive := false }
        { outcome := .ok d, stored := stored1, promptCount := pc,
          requests := [(key, payload)], errCalls := [], updCalls := [d] }

/-- Entry point: the apiKey state is initialised from the stored key at
render time, so the snapshot and the stored value start equal. -/
def getLocation (cfg : GoogleCfg) (storedAtRender : Option String)
    (prompts : List (Option String)) (responses : List GoogleResponse) : GoogleResult :=
  getLocationGo cfg storedAtRender storedAtRender prompts responses

/-- cleanup of useGoogleProvider: the empty arrow function. -/
def cleanup : Unit → Unit × List Nat := fun _ => ((), [])

/-- Configuration with only the consider-IP method selected. -/
def ipOnlyCfg : GoogleCfg :=
  { useWifi := false, useCellular := false, useIp := true,
    networkInfo := { mcc := "", mnc := "", carrier := "" },
    wifiNetworks := [], cellTowers := [] }

/-- Configuration with no location method selected. -/
def noMethodsCfg : GoogleCfg :=
  { useWifi := false, useCellular := false, useIp := false,
    networkInfo := { mcc := "", mnc := "", carrier := "" },
    wifiNetworks := [], cellTowers := [] }

/-- Configuration with only Wi-Fi selected and the given access-point
state. -/
def wifiOnlyCfg (nets : List WifiNetwork) : GoogleCfg :=
  { useWifi := true, useCellular := false, useIp := false,
    networkInfo := { mcc := "", mnc := "", carrier := "" },
    wifiNetworks := nets, cellTowers := [] }

/-- Configuration with cellular and IP selected and the given mobile
codes. -/
def cellCfg (mcc mnc : String) : GoogleCfg :=
  { useWifi := false, useCellular := true, useIp := true,
    networkInfo := { mcc := mcc, mnc := mnc, carrier := "" },
    wifiNetworks := [], cellTowers := [] }

end Google

namespace App

/-- The error panel state set by setError. -/
structure ErrView where
  message : String
  details : String
deriving Repr, DecidableEq

/-- The toast state set by setToast. -/
structure ToastMsg where
  message : String
  toastType : String
deriving Repr, DecidableEq

/-- The untyped error value handleError receives, modelled by the fields
it duck-types on: optional userMessage/userDetails (LocationError shape),
optional numeric code (raw GeolocationPositionError shape), optional name
and message. -/
structure AppError where
  userMessage : Option String := none
  userDetails : Option String := none
  code : Option Nat := none
  name : Option String := none
  message : Option String := none
deriving Repr, DecidableEq

/-- The controller state of the App component that the handlers read and
write: the active provider (currentProviderRef), loading, error,
location, toast, the accuracyInfo ref, and the gpsTimeout setting that
the code-3 message interpolates. -/
structure AppState where
  currentProvider : String
  loading : Bool
  error : Option ErrView
  location : Option LocationData
  toast : Option ToastMsg
  accuracyInfo : String
  gpsTimeout : Nat
deriving Repr, DecidableEq

/-- handleLocationUpdate of App: an update whose provider differs from
currentProviderRef.current is logged and ignored; a matching update
clears loading and the error, publishes the location, and refreshes the
accuracy text. -/
def handleLocationUpdate (s : AppState) (locationData : LocationData) : AppState :=
  if locationData.provider != s.currentProvider then s
  else
    { s with
      loading := false,
      error := none,
      location := some locationData,
      accuracyInfo := "Location accuracy: " ++ toString locationData.accuracy ++ " meters" }

/-- Details text of the controller's permission-denied projection
(template literal, whitespace normalised). -/
def permissionDeniedDetails : String :=
  "Please enable location services in your browser settings and try again.\n" ++
  "For Chrome: Settings > Privacy and Security > Site Settings > Location\n" ++
  "For Firefox: Settings > Privacy & Security > Permissions > Location\n" ++
  "For Safari: Settings > Websites > Location Services"

/-- Details text of the controller's position-unavailable projection. -/
def positionUnavailableDetails : String :=
  "Unable to determine your location. This could be due to:\n" ++
  "- GPS signal is blocked (are you indoors?)\n" ++
  "- Device location hardware issues\n" ++
  "- No GPS fix available\n" ++
  "Please try again or use a different provider."

/-- Details text of the controller's timeout projection, interpolating
the configured timeout. -/
def timeoutDetails (gpsTimeout : Nat) : String :=
  "Request timed out after " ++ toString gpsTimeout ++ " seconds. This could be due to:\n" ++
  "- Poor GPS signal\n" ++
  "- Slow network connection\n" ++
  "Try increasing the timeout or use a different provider."

/-- The (message, details, toastMessage) triple handleError computes,
with the source's precedence: structured userMessage/userDetails fields
first (when both truthy), else the numeric code lookup (codes 1, 2, 3
and a default), else the generic unknown-error texts. -/
def projectError (gpsTimeout : Nat) (e : AppError) : String × String × String :=
  if jsTruthyOpt e.userMessage && jsTruthyOpt e.userDetails then
    (e.userMessage.getD "", e.userDetails.getD "", e.userMessage.getD "")
  else if jsTruthyNum e.code then
    match e.code.getD 0 with
    | 1 => ("Location access denied", permissionDeniedDetails,
            "Location access denied. Please enable location services in your browser settings.")
    | 2 => ("Location unavailable", positionUnavailableDetails,
            "Unable to determine your location. Try moving to a location with better GPS signal.")
    | 3 => ("Location request timeout", timeoutDetails gpsTimeout,
            "Location request timed out after " ++ toString gpsTimeout ++
              " seconds. Try increasing the timeout.")
    | _ => (jsOr e.message "Unknown geolocation error occurred",
            "Please try again or use a different provider",
            "Location error occurred. Try a different provider.")
  else
    (jsOr e.message "Unknown error occurred",
     "Please try again or use a different provider",
     "An error occurred while getting your location.")

/-- handleError of App: projects the error, sets the error panel, clears
loading, and raises an error toast.  It performs no provider-id check
and leaves location and accuracyInfo untouched. -/
def handleError (s : AppState) (e : AppError) : AppState :=
  let proj := projectError s.gpsTimeout e
  { s with
    error := some { message := proj.1, details := proj.2.1 },
    loading := false,
    toast := some { message := proj.2.2, toastType := "error" } }

/-- State reset performed by startLocationWatch before invoking the
active provider (it does not clear the published location). -/
def startLocationWatchState (s : AppState) : AppState :=
  { s with loading := true, error := none }

/-- State reset performed by handleProviderChange: clears location,
error and accuracy text, sets loading, and activates the new provider. -/
def handleProviderChangeState (s : AppState) (provider : String) : AppState :=
  { s with
    location := none,
    error := none,
    loading := true,
    accuracyInfo := "",
    currentProvider := provider }

end App

/-- Helper: once the promise of a navigator watch run is settled, any
further readings delivered through the fold leave it settled at the same
value. -/
theorem watch_promise_stays (live : Bool) (rs : List Navigator.GeoPosition)
    (st : Navigator.WatchRun) (d : LocationData) (h : st.promise = some d) :
    (rs.foldl (Navigator.handlePosition live) st).promise = some d := by
  induction rs generalizing st with
  | nil => exact h
  | cons p ps ih =>
    apply ih
    simp [Navigator.handlePosition, Navigator.resolvePromise, h]

/-- Helper: delivering readings through the fold appends one update
callback per reading, in order. -/
theorem watch_updCalls_accumulate (live : Bool) (rs : List Navigator.GeoPosition)
    (st : Navigator.WatchRun) :
    (rs.foldl (Navigator.handlePosition live) st).updCalls
      = st.updCalls ++ rs.map (Navigator.toLocationData live) := by
  induction rs generalizing st with
  | nil => simp
  | cons p ps ih =>
    simp [List.foldl_cons, ih, Navigator.handlePosition]

/-- Claim C4: a location update whose carried provider id differs from
the currently active provider id is discarded, leaving the controller
state (loading, failure, result, toast, everything) unchanged; in
particular a late result tagged with a previous provider's id never
changes state while another provider is active. -/
theorem C4_stale_update_discarded (s : App.AppState) (loc : LocationData)
    (h : loc.provider ≠ s.currentProvider) :
    App.handleLocationUpdate s loc = s := by
  simp [App.handleLocationUpdate, bne_iff_ne, h]

/-- Witness for C4 at a concrete input: a result tagged navigator
arriving while google is active is ignored. -/
theorem C4_stale_update_discarded_witness :
    App.handleLocationUpdate
        { currentProvider := "google", loading := true, error := none, location := none,
          toast := none, accuracyInfo := "", gpsTimeout := 10 }
        { lat := 1, lon := 2, accuracy := 3, provider := "navigator", isLive := true }
      = { currentProvider := "google", loading := true, error := none, location := none,
          toast := none, accuracyInfo := "", gpsTimeout := 10 } :=
  C4_stale_update_discarded _ _ (by decide)

/-- Claim C7: with liveTracking true, the promise returned by
getLocation is settled by the first reading only; every reading invokes
the update callback, and later readings do not change the settled value. -/
theorem C7_live_first_reading_resolves (p : Navigator.GeoPosition)
    (rest : List Navigator.GeoPosition) :
    (Navigator.runWatch true (p :: rest)).promise
        = some (Navigator.toLocationData true p) ∧
    (Navigator.runWatch true (p :: rest)).updCalls
        = (p :: rest).map (Navigator.toLocationData true) := by
  constructor
  · unfold Navigator.runWatch
    rw [List.foldl_cons]
    exact watch_promise_stays true rest _ _ (by
      simp [Navigator.handlePosition, Navigator.resolvePromise])
  · unfold Navigator.runWatch
    rw [List.foldl_cons, watch_updCalls_accumulate]
    simp [Navigator.handlePosition]

/-- Claim C9: for each provider, cleanup called twice in succession
raises no error and releases nothing on the second call, and cleanup
with nothing active is a no-op. -/
theorem C9_cleanup_idempotent (w : Option Nat) :
    Navigator.cleanup (Navigator.cleanup w).1 = ((Navigator.cleanup w).1, []) ∧
    Navigator.cleanup none = (none, []) ∧
    Google.cleanup (Google.cleanup ()).1 = ((), []) ∧
    Ip.cleanup (Ip.cleanup ()).1 = ((), []) := by
  refine ⟨?_, rfl, rfl, rfl⟩
  cases w with
  | none => simp [Navigator.cleanup]
  | some n =>
    by_cases h : n = 0
    · subst h
      simp [Navigator.cleanup]
    · simp [Navigator.cleanup, bne_iff_ne, h]

/-- Claim C10: handleError applies every failure regardless of the
active provider (failures carry no provider id and no staleness check
exists), overwriting failure, loading and notification state, while a
location update from a non-active provider is discarded. -/
theorem C10_error_callbacks_unfiltered (s : App.AppState) (loc : LocationData)
    (e : App.AppError) (h : loc.provider ≠ s.currentProvider) :
    App.handleLocationUpdate s loc = s ∧
    (App.handleError s e).error.isSome = true ∧
    (App.handleError s e).loading = false ∧
    (App.handleError s e).toast.isSome = true := by
  refine ⟨?_, ?_, ?_, ?_⟩ <;>
    simp [App.handleLocationUpdate, App.handleError, bne_iff_ne, h]

/-- Witness for C10 at a concrete input: while ip is active, a late
failure from the abandoned google acquisition still sets failure,
clears loading and raises a toast. -/
theorem C10_error_callbacks_unfiltered_witness :
    App.handleLocationUpdate
        { currentProvider := "ip", loading := false, error := none,
          location := none, toast := none, accuracyInfo := "", gpsTimeout := 10 }
        { lat := 5, lon := 6, accuracy := 7, provider := "google", isLive := false }
      = { currentProvider := "ip", loading := false, error := none,
          location := none, toast := none, accuracyInfo := "", gpsTimeout := 10 } ∧
    (App.handleError
        { currentProvider := "ip", loading := false, error := none,
          location := none, toast := none, accuracyInfo := "", gpsTimeout := 10 }
        { userMessage := some "API Key Error",
          userDetails := some "The provided API key is not valid." }).error.isSome = true ∧
    (App.handleError
        { currentProvider := "ip", loading := false, error := none,
          location := none, toast := none, accuracyInfo := "", gpsTimeout := 10 }
        { userMessage := some "API Key Error",
          userDetails := some "The provided API key is not valid." }).loading = false ∧
    (App.handleError
        { currentProvider := "ip", loading := false, error := none,
          location := none, toast := none, accuracyInfo := "", gpsTimeout := 10 }
        { userMessage := some "API Key Error",
          userDetails := some "The provided API key is not valid." }).toast.isSome = true :=
  C10_error_callbacks_unfiltered _ _ _ (by decide)

/-- Counterexample to claim C3 as stated: after a successful update has
published a result, a subsequently delivered failure (here a
LocationError-shaped failure, as after a google option-change refresh)
sets the failure but leaves the result in place, so the settled state
holds a result AND a failure, not exactly one of the two. -/
theorem C3_counterexample :
    ((App.handleError
        (App.handleLocationUpdate
          { currentProvider := "google", loading := true, error := none, location := none,
            toast := none, accuracyInfo := "", gpsTimeout := 10 }
          { lat := 1, lon := 2, accuracy := 30, provider := "google", isLive := false })
        { userMessage := some "API Key Error",
          userDetails := some "The provided API key is not valid." }).location
      = some { lat := 1, lon := 2, accuracy := 30, provider := "google", isLive := false }) ∧
    ((App.handleError
        (App.handleLocationUpdate
          { currentProvider := "google", loading := true, error := none, location := none,
            toast := none, accuracyInfo := "", gpsTimeout := 10 }
          { lat := 1, lon := 2, accuracy := 30, provider := "google", isLive := false })
        { userMessage := some "API Key Error",
          userDetails := some "The provided API key is not valid." }).error
      = some { message := "API Key Error",
               details := "The provided API key is not valid." }) ∧
    ((App.handleError
        (App.handleLocationUpdate
          { currentProvider := "google", loading := true, error := none, location := none,
            toast := none, accuracyInfo := "", gpsTimeout := 10 }
          { lat := 1, lon := 2, accuracy := 30, provider := "google", isLive := false })
        { userMessage := some "API Key Error",
          userDetails := some "The provided API key is not valid." }).loading
      = false) := by
  refine ⟨rfl, ?_, rfl⟩
  rfl

/-- Claim C3 as amended: every settlement clears loading; a success
with matching provider id sets the result and clears the failure; a
failure sets the failure but leaves any previously published result in
place (so result and failure can coexist after a failure that follows
an earlier success). -/
theorem C3_settlement_state (s : App.AppState) (loc : LocationData)
    (e : App.AppError) (h : loc.provider = s.currentProvider) :
    ((App.handleLocationUpdate s loc).loading = false ∧
     (App.handleLocationUpdate s loc).error = none ∧
     (App.handleLocationUpdate s loc).location = some loc) ∧
    ((App.handleError s e).loading = false ∧
     (App.handleError s e).error.isSome = true ∧
     (App.handleError s e).location = s.location) := by
  refine ⟨⟨?_, ?_, ?_⟩, ?_, ?_, ?_⟩ <;>
    simp [App.handleLocationUpdate, App.handleError, h]

/-- Witness for C3 at a concrete input. -/
theorem C3_settlement_state_witness :
    ((App.handleLocationUpdate
        { currentProvider := "ip", loading := true, error := none, location := none,
          toast := none, accuracyInfo := "", gpsTimeout := 10 }
        { lat := 48, lon := 2, accuracy := 5000, provider := "ip", isLive := false }).loading
        = false ∧
     (App.handleLocationUpdate
        { currentProvider := "ip", loading := true, error := none, location := none,
          toast := none, accuracyInfo := "", gpsTimeout := 10 }
        { lat := 48, lon := 2, accuracy := 5000, provider := "ip", isLive := false }).error
        = none ∧
     (App.handleLocationUpdate
        { currentProvider := "ip", loading := true, error := none, location := none,
          toast := none, accuracyInfo := "", gpsTimeout := 10 }
        { lat := 48, lon := 2, accuracy := 5000, provider := "ip", isLive := false }).location
        = some { lat := 48, lon := 2, accuracy := 5000, provider := "ip", isLive := false }) ∧
    ((App.handleError
        { currentProvider := "ip", loading := true, error := none, location := none,
          toast := none, accuracyInfo := "", gpsTimeout := 10 }
        { code := some 3 }).loading = false ∧
     (App.handleError
        { currentProvider := "ip", loading := true, error := none, location := none,
          toast := none, accuracyInfo := "", gpsTimeout := 10 }
        { code := some 3 }).error.isSome = true ∧
     (App.handleError
        { currentProvider := "ip", loading := true, error := none, location := none,
          toast := none, accuracyInfo := "", gpsTimeout := 10 }
        { code := some 3 }).location
        = App.AppState.location
            { currentProvider := "ip", loading := true, error := none, location := none,
              toast := none, accuracyInfo := "", gpsTimeout := 10 }) :=
  C3_settlement_state _ _ _ (by decide)

/-- Counterexample to claim C8 as stated: a success response whose
latitude field is present but equal to 0 is classified as invalid
location data, although neither coordinate is missing. -/
theorem C8_counterexample :
    (Ip.getLocation (.resp
        { ok := true, status := 200, latitude := some 0, longitude := some 20 })).1
      = Except.error Ip.invalidDataError ∧
    (Ip.getLocation (.resp
        { ok := true, status := 200, latitude := some 0, longitude := some 20 })).2.errCalls
      = [Ip.invalidDataError] := by
  exact ⟨rfl, rfl⟩

/-- Claim C8 as amended: for a success-status response, getLocation
fails with the invalid-location-data classification iff latitude or
longitude is missing OR zero (JavaScript falsiness); when both are
present and non-zero it returns the coordinates verbatim with accuracy
5000 and isLive false, delivering the same record through the update
callback. -/
theorem C8_ip_success_response (r : Ip.IpResponse) (h : r.ok = true) :
    ((Ip.getLocation (.resp r)).1 = Except.error Ip.invalidDataError ↔
      (r.latitude = none ∨ r.latitude = some 0 ∨
       r.longitude = none ∨ r.longitude = some 0)) ∧
    (∀ la lo : Int, r.latitude = some la → r.longitude = some lo →
      la ≠ 0 → lo ≠ 0 →
      (Ip.getLocation (.resp r)).1
          = Except.ok { lat := la, lon := lo, accuracy := 5000,
                        provider := "ip", isLive := false } ∧
      (Ip.getLocation (.resp r)).2.updCalls
          = [{ lat := la, lon := lo, accuracy := 5000,
               provider := "ip", isLive := false }]) := by
  obtain ⟨ok, status, la?, lo?⟩ := r
  simp only at h
  subst h
  rcases la? with _ | la <;> rcases lo? with _ | lo
  · simp [Ip.getLocation, Ip.jsFalsyNum]
  · simp [Ip.getLocation, Ip.jsFalsyNum]
  · simp [Ip.getLocation, Ip.jsFalsyNum]
  · by_cases hla : la = 0 <;> by_cases hlo : lo = 0 <;>
      (refine ⟨by simp [Ip.getLocation, Ip.jsFalsyNum, hla, hlo], ?_⟩
       rintro la2 lo2 h1 h2 h3 h4
       rw [Option.some.injEq] at h1 h2
       subst h1
       subst h2
       simp_all [Ip.getLocation, Ip.jsFalsyNum])

/-- Witness for C8 at a concrete input: latitude 10, longitude 20 give
the verbatim result with accuracy 5000 and isLive false. -/
theorem C8_ip_success_response_witness :
    (Ip.getLocation (.resp
        { ok := true, status := 200, latitude := some 10, longitude := some 20 })).1
      = Except.ok { lat := 10, lon := 20, accuracy := 5000,
                    provider := "ip", isLive := false } ∧
    (Ip.getLocation (.resp
        { ok := true, status := 200, latitude := some 10, longitude := some 20 })).2.updCalls
      = [{ lat := 10, lon := 20, accuracy := 5000, provider := "ip", isLive := false }] :=
  (C8_ip_success_response _ rfl).2 10 20 rfl rfl (by decide) (by decide)

/-- Counterexample to claim C1 as stated: with a stored key k0 and
invalid-key responses to every attempt, supplying a fresh key at each
re-prompt makes the provider issue a third request after the second
consecutive invalid-key response — the retry is not bounded to one —
and every request, including the retries, is sent with the stale
render-time key k0 rather than a newly supplied credential. -/
theorem C1_counterexample :
    ((Google.getLocation Google.ipOnlyCfg (some "k0") [some "k1", some "k2"]
        [{ ok := false, status := 403 }, { ok := false, status := 403 },
         { ok := false, status := 403 }]).requests.map Prod.fst
      = ["k0", "k0", "k0"]) ∧
    ((Google.getLocation Google.ipOnlyCfg (some "k0") [some "k1", some "k2"]
        [{ ok := false, status := 403 }, { ok := false, status := 403 },
         { ok := false, status := 403 }]).outcome
      = Except.error (Google.invalidApiKeyError 403)) ∧
    ((Google.getLocation Google.ipOnlyCfg (some "k0") [some "k1", some "k2"]
        [{ ok := false, status := 403 }, { ok := false, status := 403 },
         { ok := false, status := 403 }]).promptCount = 3) := by
  refine ⟨rfl, rfl, rfl⟩

/-- Claim C1 as amended: every invalid-key response (403, or 400 with a
key-related message) clears the stored credential and re-prompts.  If
the re-prompt yields no key, the acquisition fails with the
invalid-credential classification after that single request.  If the
re-prompt yields a key, the key is stored and the acquisition is re-run,
but the retry reuses the render-time key snapshot rather than the newly
supplied credential, and retries recur for every further invalid-key
response for as long as the prompt supplies a key — the bound comes only
from the caller declining the prompt, not from a single-retry rule. -/
theorem C1_invalid_key_retry_behavior (status : Nat) (errMsg : Option String)
    (hr : Google.isInvalidKeyResp { ok := false, status := status, errMsg := errMsg }
            = true) :
    ((Google.getLocation Google.ipOnlyCfg (some "k0") [none]
        [{ ok := false, status := status, errMsg := errMsg }]).outcome
        = Except.error (Google.invalidApiKeyError status) ∧
     (Google.getLocation Google.ipOnlyCfg (some "k0") [none]
        [{ ok := false, status := status, errMsg := errMsg }]).stored = none ∧
     (Google.getLocation Google.ipOnlyCfg (some "k0") [none]
        [{ ok := false, status := status, errMsg := errMsg }]).requests.map Prod.fst
        = ["k0"]) ∧
    ((Google.getLocation Google.ipOnlyCfg (some "k0") [some "k1"]
        [{ ok := false, status := status, errMsg := errMsg },
         { ok := false, status := status, errMsg := errMsg }]).requests.map Prod.fst
        = ["k0", "k0"] ∧
     (Google.getLocation Google.ipOnlyCfg (some "k0") [some "k1"]
        [{ ok := false, status := status, errMsg := errMsg },
         { ok := false, status := status, errMsg := errMsg }]).outcome
        = Except.error (Google.invalidApiKeyError status) ∧
     (Google.getLocation Google.ipOnlyCfg (some "k0") [some "k1"]
        [{ ok := false, status := status, errMsg := errMsg },
         { ok := false, status := status, errMsg := errMsg }]).stored = none) := by
  have hks : jsTruthyOpt (some "k0") = true := by decide
  have hk1 : jsTruthy "k1" = true := by decide
  refine ⟨⟨?_, ?_, ?_⟩, ?_, ?_, ?_⟩ <;>
    simp [Google.getLocation, Google.getLocationGo, Google.preFetch, Google.afterKey,
      Google.buildPayload, Google.attachCellular, Google.attachWifi, Google.ipOnlyCfg,
      Google.preFailResult, List.headD, hks, hk1, hr]

/-- Witness for C1 at a concrete input: a plain 403 response. -/
theorem C1_invalid_key_retry_behavior_witness :
    ((Google.getLocation Google.ipOnlyCfg (some "k0") [none]
        [{ ok := false, status := 403, errMsg := none }]).outcome
        = Except.error (Google.invalidApiKeyError 403) ∧
     (Google.getLocation Google.ipOnlyCfg (some "k0") [none]
        [{ ok := false, status := 403, errMsg := none }]).stored = none ∧
     (Google.getLocation Google.ipOnlyCfg (some "k0") [none]
        [{ ok := false, status := 403, errMsg := none }]).requests.map Prod.fst
        = ["k0"]) ∧
    ((Google.getLocation Google.ipOnlyCfg (some "k0") [some "k1"]
        [{ ok := false, status := 403, errMsg := none },
         { ok := false, status := 403, errMsg := none }]).requests.map Prod.fst
        = ["k0", "k0"] ∧
     (Google.getLocation Google.ipOnlyCfg (some "k0") [some "k1"]
        [{ ok := false, status := 403, errMsg := none },
         { ok := false, status := 403, errMsg := none }]).outcome
        = Except.error (Google.invalidApiKeyError 403) ∧
     (Google.getLocation Google.ipOnlyCfg (some "k0") [some "k1"]
        [{ ok := false, status := 403, errMsg := none },
         { ok := false, status := 403, errMsg := none }]).stored = none) :=
  C1_invalid_key_retry_behavior 403 none (by decide)

/-- Counterexample to claim C2 as stated: invoked with no stored
credential and no method selected, getLocation prompts for a key (one
prompt is consumed) and, when none is supplied, fails with the
no-API-key error — not with the no-methods validation failure and not
without prompting. -/
theorem C2_counterexample :
    (Google.getLocation Google.noMethodsCfg none [none] []).outcome
        = Except.error Google.noApiKeyError ∧
    (Google.getLocation Google.noMethodsCfg none [none] []).outcome
        ≠ Except.error Google.noMethodsError ∧
    (Google.getLocation Google.noMethodsCfg none [none] []).promptCount = 1 := by
  refine ⟨rfl, ?_, rfl⟩
  decide

/-- Claim C2 as amended: the credential prompt precedes the methods
check.  With no stored credential and no method selected, the caller is
always prompted once; if no key is supplied the call fails with the
no-API-key error, and if a key is supplied the key is stored and the
call then fails with the no-methods validation failure, issuing no
request in either case. -/
theorem C2_prompt_precedes_methods (key : String) (hk : key ≠ "") :
    ((Google.getLocation Google.noMethodsCfg none [none] []).outcome
        = Except.error Google.noApiKeyError ∧
     (Google.getLocation Google.noMethodsCfg none [none] []).promptCount = 1 ∧
     (Google.getLocation Google.noMethodsCfg none [none] []).requests = []) ∧
    ((Google.getLocation Google.noMethodsCfg none [some key] []).outcome
        = Except.error Google.noMethodsError ∧
     (Google.getLocation Google.noMethodsCfg none [some key] []).promptCount = 1 ∧
     (Google.getLocation Google.noMethodsCfg none [some key] []).requests = [] ∧
     (Google.getLocation Google.noMethodsCfg none [some key] []).stored = some key) := by
  have ek : key.isEmpty = false := by
    cases hb : key.isEmpty
    · rfl
    · exact absurd ((String.isEmpty_iff key).mp hb) hk
  refine ⟨⟨rfl, rfl, rfl⟩, ?_, ?_, ?_, ?_⟩ <;>
    simp [Google.getLocation, Google.getLocationGo, Google.preFetch, Google.afterKey,
      Google.noMethodsCfg, Google.preFailResult, jsTruthyOpt, jsTruthy, List.headD, ek]

/-- Witness for C2 at a concrete input. -/
theorem C2_prompt_precedes_methods_witness :
    ((Google.getLocation Google.noMethodsCfg none [none] []).outcome
        = Except.error Google.noApiKeyError ∧
     (Google.getLocation Google.noMethodsCfg none [none] []).promptCount = 1 ∧
     (Google.getLocation Google.noMethodsCfg none [none] []).requests = []) ∧
    ((Google.getLocation Google.noMethodsCfg none [some "fresh"] []).outcome
        = Except.error Google.noMethodsError ∧
     (Google.getLocation Google.noMethodsCfg none [some "fresh"] []).promptCount = 1 ∧
     (Google.getLocation Google.noMethodsCfg none [some "fresh"] []).requests = [] ∧
     (Google.getLocation Google.noMethodsCfg none [some "fresh"] []).stored = some "fresh") :=
  C2_prompt_precedes_methods "fresh" (by decide)

/-- Claim C5, evaluated at the failing input: with Wi-Fi enabled, IP and
cellular disabled, and an empty access-point list, the guard on
wifiNetworks.length (greater-or-equal 0) holds vacuously, so the empty
list is attached and the request is issued — the insufficient-data
branch, whose own message says at least two access points are required,
is unreachable and no insufficient-data failure is raised. -/
theorem C5_failing_input_eval :
    (Google.getLocation (Google.wifiOnlyCfg []) (some "k") []
        [{ ok := true, status := 200, lat := 7, lng := 8, accuracy := 9 }]).requests
      = [("k", { considerIp := false, wifiAccessPoints := some [] })] ∧
    (Google.getLocation (Google.wifiOnlyCfg []) (some "k") []
        [{ ok := true, status := 200, lat := 7, lng := 8, accuracy := 9 }]).outcome
      = Except.ok { lat := 7, lon := 8, accuracy := 9, provider := "google", isLive := false } ∧
    (Google.getLocation (Google.wifiOnlyCfg []) (some "k") []
        [{ ok := true, status := 200, lat := 7, lng := 8, accuracy := 9 }]).errCalls
      = [] := by
  refine ⟨rfl, rfl, rfl⟩

/-- Counterexample to claim C6 as stated: with cellular enabled, a
non-numeric mobile country code abc and an empty mobile network code,
getLocation raises no invalid-MCC failure at all — the validation block
is skipped because it runs only when both codes are non-empty — and the
request is issued (without cellular fields). -/
theorem C6_counterexample :
    (Google.getLocation (Google.cellCfg "abc" "") (some "k") []
        [{ ok := true, status := 200, lat := 1, lng := 2, accuracy := 3 }]).outcome
      = Except.ok { lat := 1, lon := 2, accuracy := 3, provider := "google", isLive := false } ∧
    (Google.getLocation (Google.cellCfg "abc" "") (some "k") []
        [{ ok := true, status := 200, lat := 1, lng := 2, accuracy := 3 }]).requests
      = [("k", { considerIp := true })] ∧
    (Google.getLocation (Google.cellCfg "abc" "") (some "k") []
        [{ ok := true, status := 200, lat := 1, lng := 2, accuracy := 3 }]).errCalls
      = [] := by
  refine ⟨rfl, rfl, rfl⟩

/-- Claim C6 as amended: when cellular is enabled and both the mobile
country code and mobile network code are non-empty, a code that is not
an all-digit string makes getLocation fail with the dedicated
invalid-MCC (respectively invalid-MNC) classification before any
request is issued; when either code is empty the cellular block — and
its validation — is skipped. -/
theorem C6_validation_when_codes_nonempty (mcc mnc : String)
    (h1 : mcc ≠ "") (h2 : mnc ≠ "") :
    (Google.matchesAllDigits mcc = false →
      (Google.getLocation (Google.cellCfg mcc mnc) (some "k") [] []).outcome
          = Except.error Google.invalidMccError ∧
      (Google.getLocation (Google.cellCfg mcc mnc) (some "k") [] []).requests = [] ∧
      (Google.getLocation (Google.cellCfg mcc mnc) (some "k") [] []).errCalls
          = [Google.invalidMccError]) ∧
    (Google.matchesAllDigits mcc = true → Google.matchesAllDigits mnc = false →
      (Google.getLocation (Google.cellCfg mcc mnc) (some "k") [] []).outcome
          = Except.error Google.invalidMncError ∧
      (Google.getLocation (Google.cellCfg mcc mnc) (some "k") [] []).requests = [] ∧
      (Google.getLocation (Google.cellCfg mcc mnc) (some "k") [] []).errCalls
          = [Google.invalidMncError]) := by
  have hks : jsTruthyOpt (some "k") = true := by decide
  have e1 : mcc.isEmpty = false := by
    cases hb : mcc.isEmpty
    · rfl
    · exact absurd ((String.isEmpty_iff mcc).mp hb) h1
  have e2 : mnc.isEmpty = false := by
    cases hb : mnc.isEmpty
    · rfl
    · exact absurd ((String.isEmpty_iff mnc).mp hb) h2
  constructor
  · intro hm
    refine ⟨?_, ?_, ?_⟩ <;>
      simp [Google.getLocation, Google.getLocationGo, Google.preFetch, Google.afterKey,
        Google.buildPayload, Google.attachCellular, Google.cellCfg,
        Google.preFailResult, jsTruthy, hks, e1, e2, hm]
  · intro hm1 hm2
    refine ⟨?_, ?_, ?_⟩ <;>
      simp [Google.getLocation, Google.getLocationGo, Google.preFetch, Google.afterKey,
        Google.buildPayload, Google.attachCellular, Google.cellCfg,
        Google.preFailResult, jsTruthy, hks, e1, e2, hm1, hm2]

/-- Witness for C6 at concrete inputs: mcc abc with mnc 12 fails with
the invalid-MCC classification and no request. -/
theorem C6_validation_when_codes_nonempty_witness :
    (Google.getLocation (Google.cellCfg "abc" "12") (some "k") [] []).outcome
        = Except.error Google.invalidMccError ∧
    (Google.getLocation (Google.cellCfg "abc" "12") (some "k") [] []).requests = [] ∧
    (Google.getLocation (Google.cellCfg "abc" "12") (some "k") [] []).errCalls
        = [Google.invalidMccError] :=
  (C6_validation_when_codes_nonempty "abc" "12" (by decide) (by decide)).1 (by decide)

end LocationChecker
